import Mathlib

/-!
Shallow embedding of `src/platform_impl/macos/app_delegate.rs` from the
`tao` repository: the macOS application-delegate subsystem.

Modelling conventions:
* Objective-C object pointers (`id`, `&Object`) become `Nat` identifiers or a
  small `Object` record holding the one declared ivar.
* The heap of `Box<RefCell<AuxDelegateState>>` allocations is a counter-based
  map `Nat → Option RefCellAux`; `Box::into_raw` is `Heap.alloc`,
  `Box::from_raw` + drop is `Heap.free` (returning `none` on a dangling
  pointer, which in Rust is undefined behaviour / a double free).
* The `RefCell` borrow flag is the `borrowed` field; `borrow_mut` panics
  (modelled as a distinguished result) when the flag is already set.
* The externally linked functions `handle_apple_event` and
  `service_should_handle_reopen`, and the `AppState` entry points, are
  modelled as parameters and as constructors of an `Effect` trace type.
-/

set_option autoImplicit false

namespace Tao

/-- Activation policy enumeration used by the delegate state
(`crate::platform::macos::ActivationPolicy`). -/
inductive ActivationPolicy
  | regular
  | accessory
  | prohibited
deriving DecidableEq, Repr

/-- The auxiliary per-delegate state record, field for field the Rust
`pub struct AuxDelegateState`. -/
structure AuxDelegateState where
  activation_policy : ActivationPolicy
  create_default_menu : Bool
  activate_ignoring_other_apps : Bool
deriving DecidableEq, Repr

/-- Model of `RefCell<AuxDelegateState>`: the current value together with the
flag recording whether a mutable borrow is live. -/
structure RefCellAux where
  borrowed : Bool
  value : AuxDelegateState
deriving DecidableEq, Repr

/-- Model of `RefCell::borrow_mut`: fails (panics) when a mutable borrow is
already live, otherwise yields the value and marks the cell borrowed. -/
def RefCellAux.borrow_mut (c : RefCellAux) : Option (AuxDelegateState × RefCellAux) :=
  if c.borrowed then none else some (c.value, { c with borrowed := true })

/-- Counter-based heap of boxed `RefCell<AuxDelegateState>` allocations. -/
structure Heap where
  next : Nat
  cells : Nat → Option RefCellAux

/-- The empty heap. -/
def Heap.empty : Heap := ⟨0, fun _ => none⟩

/-- Model of `Box::into_raw(Box::new v)`: returns a fresh address and the
extended heap. -/
def Heap.alloc (h : Heap) (v : RefCellAux) : Nat × Heap :=
  (h.next, ⟨h.next + 1, fun a => if a = h.next then some v else h.cells a⟩)

/-- Model of `Box::from_raw` followed by an immediate drop: frees the cell at
the given address.  Returns `none` when the address is not currently
allocated — in Rust this is a double free, undefined behaviour, not a no-op. -/
def Heap.free (h : Heap) (a : Nat) : Option Heap :=
  match h.cells a with
  | none => none
  | some _ => some ⟨h.next, fun b => if b = a then none else h.cells b⟩

/-- Well-formedness of the counter-based heap: no cell lives at or above the
allocation counter. -/
def Heap.WF (h : Heap) : Prop := ∀ a, h.next ≤ a → h.cells a = none

/-- Name of the single opaque ivar: `static AUX_DELEGATE_STATE_NAME`. -/
def AUX_DELEGATE_STATE_NAME : String := "auxState"

/-- Apple `kInternetEventClass` constant, as declared in the source. -/
def kInternetEventClass : Nat := 0x4755524c

/-- Apple `kAEGetURL` constant, as declared in the source. -/
def kAEGetURL : Nat := 0x4755524c

/-- A delegate instance: it carries exactly the one declared ivar, the opaque
`*mut c_void` slot (`none` models a null pointer, the zero-initialised state
right after `alloc`). -/
structure Object where
  auxState : Option Nat
deriving DecidableEq, Repr

/-- Process-wide world state touched by the instance lifecycle hooks: the heap
of boxed state records, and the `NSAppleEventManager` single-slot handler
registry keyed by (event class, event id), storing the registered instance and
selector. -/
structure World where
  heap : Heap
  handlers : Nat × Nat → Option (Object × String)

/-- The defaults written by the allocation hook:
`ActivationPolicy::Regular`, `create_default_menu: true`,
`activate_ignoring_other_apps: true`. -/
def defaultAuxState : AuxDelegateState :=
  { activation_policy := .regular
  , create_default_menu := true
  , activate_ignoring_other_apps := true }

/-- The primitive steps executed, in order, by the body of
`extern "C" fn new`: `alloc`/`init` of the instance, the `set_ivar` of the
freshly boxed state record, and the `setEventHandler:...` registration with
the shared Apple event manager. -/
inductive NewStep
  | allocInit
  | storeAux
  | registerUrlHandler
deriving DecidableEq, Repr

/-- The statement order of `extern "C" fn new`. -/
def newSteps : List NewStep := [.allocInit, .storeAux, .registerUrlHandler]

/-- Intermediate state while `new` runs: the instance under construction and
the world. -/
structure NewExec where
  obj : Object
  world : World

/-- Effect of one step of `new` on the instance under construction and the
world, transliterated from the source:
* `allocInit`: `msg_send![class, alloc]` zero-initialises the ivar (null),
  `init` leaves it alone;
* `storeAux`: `set_ivar(AUX_DELEGATE_STATE_NAME, Box::into_raw(Box::new(
  RefCell::new(AuxDelegateState { Regular, true, true }))))`;
* `registerUrlHandler`: `setEventHandler: this andSelector:
  handleEvent:withReplyEvent: forEventClass: kInternetEventClass andEventID:
  kAEGetURL` on the shared `NSAppleEventManager`, overwriting the single slot
  for that key. -/
def execNewStep (s : NewExec) : NewStep → NewExec
  | .allocInit => { s with obj := { auxState := none } }
  | .storeAux =>
      let (addr, heap') := s.world.heap.alloc { borrowed := false, value := defaultAuxState }
      { obj := { auxState := some addr }
      , world := { s.world with heap := heap' } }
  | .registerUrlHandler =>
      let h : Nat × Nat → Option (Object × String) := fun k =>
        if k = (kInternetEventClass, kAEGetURL)
        then some (s.obj, "handleEvent:withReplyEvent:")
        else s.world.handlers k
      { s with world := { s.world with handlers := h } }

/-- The allocation hook `extern "C" fn new(class, _)`: runs the steps in
statement order and returns the new instance together with the updated
world. -/
def newHook (w : World) : Object × World :=
  let s := newSteps.foldl execNewStep { obj := { auxState := none }, world := w }
  (s.obj, s.world)

/-- The deallocation hook `extern "C" fn dealloc`: reads the opaque ivar and
reconstructs the box, which is immediately dropped, releasing the memory.
`none` models the undefined behaviour of `Box::from_raw` on a null or dangling
pointer (double free / contract violation). -/
def deallocHook (w : World) (this : Object) : Option World :=
  match this.auxState with
  | none => none
  | some addr =>
    match w.heap.free addr with
    | none => none
    | some heap' => some { w with heap := heap' }

/-- Result of the accessor `get_aux_state_mut`. -/
inductive AccessResult
  | ok (v : AuxDelegateState) (w : World)
  | panicked
  | undefined

/-- The accessor `pub unsafe fn get_aux_state_mut(this)`: reads the opaque
ivar, reinterprets it as `RefCell<AuxDelegateState>` and calls `borrow_mut`.
`undefined` models violating the safety contract (null or dangling pointer);
`panicked` models the `RefCell` borrow panic; `ok` returns the readable value
and the world with the borrow flag now set. -/
def get_aux_state_mut (w : World) (this : Object) : AccessResult :=
  match this.auxState with
  | none => .undefined
  | some addr =>
    match w.heap.cells addr with
    | none => .undefined
    | some c =>
      match c.borrow_mut with
      | none => .panicked
      | some (v, c') =>
          .ok v { w with heap := ⟨w.heap.next,
            fun b => if b = addr then some c' else w.heap.cells b⟩ }

/-- Observable effects emitted by the lifecycle forwarders: `trace!` markers
and the calls into the external `AppState` state machine and the externally
linked handler functions. -/
inductive Effect
  | traceMark (msg : String)
  | appStateLaunched (this : Nat)
  | appStateExit
  | callHandleAppleEvent (this : Nat) (sel : String) (event reply : Nat)
  | callShouldHandleReopen (this : Nat) (sel : String) (sender : Nat) (hasVisibleWindows : Bool)
deriving DecidableEq, Repr

/-- Whether an effect is the `AppState::launched` call. -/
def Effect.isLaunched : Effect → Bool
  | .appStateLaunched _ => true
  | _ => false

/-- Whether an effect is the `AppState::exit` call. -/
def Effect.isExit : Effect → Bool
  | .appStateExit => true
  | _ => false

/-- Whether an effect is a call to any external entry point (anything other
than a `trace!` marker). -/
def Effect.isExternalCall : Effect → Bool
  | .traceMark _ => false
  | _ => true

/-- Forwarder `extern "C" fn did_finish_launching(this, _, _)`: trace marker,
`AppState::launched(this)`, trace marker. -/
def did_finish_launching (this : Nat) (_sel : String) (_notif : Nat) : List Effect :=
  [ .traceMark "Triggered `applicationDidFinishLaunching`"
  , .appStateLaunched this
  , .traceMark "Completed `applicationDidFinishLaunching`" ]

/-- Forwarder `extern "C" fn application_will_terminate(_, _, _)`: trace
marker, `AppState::exit()`, trace marker. -/
def application_will_terminate (_this : Nat) (_sel : String) (_notif : Nat) : List Effect :=
  [ .traceMark "Triggered `applicationWillTerminate`"
  , .appStateExit
  , .traceMark "Completed `applicationWillTerminate`" ]

/-- Forwarder `extern "C" fn application_will_become_active(obj, sel, id)`:
emits the single trace marker and nothing else. -/
def application_will_become_active (_obj : Nat) (_sel : String) (_id : Nat) : List Effect :=
  [ .traceMark "Triggered `applicationWillBecomeActive`" ]

/-- Forwarder `extern "C" fn application_handle_apple_event(_this, _cmd,
event, _reply)`: calls the externally linked `handle_apple_event` on exactly
its own arguments and returns its verdict.  The external function is a
parameter; the pair is (returned `BOOL`, emitted effects). -/
def application_handle_apple_event
    (handle_apple_event : Nat → String → Nat → Nat → Bool)
    (this : Nat) (cmd : String) (event reply : Nat) : Bool × List Effect :=
  (handle_apple_event this cmd event reply,
   [ .callHandleAppleEvent this cmd event reply ])

/-- Forwarder `extern "C" fn application_should_handle_reopen(obj, sel, id,
has_visible_windows)`: calls the externally linked
`service_should_handle_reopen` on exactly its own arguments and returns its
verdict. -/
def application_should_handle_reopen
    (service_should_handle_reopen : Nat → String → Nat → Bool → Bool)
    (obj : Nat) (sel : String) (sender : Nat) (has_visible_windows : Bool) :
    Bool × List Effect :=
  (service_should_handle_reopen obj sel sender has_visible_windows,
   [ .callShouldHandleReopen obj sel sender has_visible_windows ])

/-- Host notifications deliverable to a delegate instance, one per registered
callback selector (besides `new`/`dealloc`). -/
inductive Notification
  | launchFinished (notif : Nat)
  | willTerminate (notif : Nat)
  | willBecomeActive (notif : Nat)
  | handleServiceEvent (event reply : Nat)
  | shouldHandleReopen (sender : Nat) (hasVisibleWindows : Bool)
deriving DecidableEq, Repr

/-- Whether a notification is the launch-finished one. -/
def Notification.isLaunch : Notification → Bool
  | .launchFinished _ => true
  | _ => false

/-- Whether a notification is the will-terminate one. -/
def Notification.isTerm : Notification → Bool
  | .willTerminate _ => true
  | _ => false

/-- Dispatch of one host notification through the registered function table
to the forwarder bound to its selector, collecting the emitted effects (the
host consumes any returned `BOOL` itself). -/
def dispatchNotif (hae : Nat → String → Nat → Nat → Bool)
    (sshr : Nat → String → Nat → Bool → Bool) (this : Nat) :
    Notification → List Effect
  | .launchFinished n => did_finish_launching this "applicationDidFinishLaunching:" n
  | .willTerminate n => application_will_terminate this "applicationWillTerminate:" n
  | .willBecomeActive n => application_will_become_active this "applicationWillBecomeActive:" n
  | .handleServiceEvent e r =>
      (application_handle_apple_event hae this "handleEvent:withReplyEvent:" e r).2
  | .shouldHandleReopen s f =>
      (application_should_handle_reopen sshr this
        "applicationShouldHandleReopen:hasVisibleWindows:" s f).2

/-- Concatenated effect trace of a sequence of delivered notifications. -/
def notifTrace (hae : Nat → String → Nat → Nat → Bool)
    (sshr : Nat → String → Nat → Bool → Bool) (this : Nat)
    (ns : List Notification) : List Effect :=
  (ns.map (dispatchNotif hae sshr this)).flatten

/-- Host ordering guarantees on a delivery sequence: launch-finished occurs at
most once and only first (no occurrence in the tail), will-terminate occurs at
most once, and only after a launch-finished. -/
def HostOrdered (ns : List Notification) : Prop :=
  ns.tail.all (fun n => !n.isLaunch) = true ∧
  ns.countP (fun n => n.isTerm) ≤ 1 ∧
  (∀ j, (h : j < ns.length) → (ns.get ⟨j, h⟩).isTerm = true →
    0 < (ns.take j).countP (fun n => n.isLaunch))

/-- Model of the registered Objective-C class: name, superclass, the function
table (selector paired with the name of the implementing function) and the
declared ivars. -/
structure ObjcClassDecl where
  name : String
  superclass : String
  classMethods : List (String × String)
  instanceMethods : List (String × String)
  ivars : List String
deriving DecidableEq, Repr

/-- The class built by the `lazy_static!` initialiser body: `TaoAppDelegate`
deriving `NSResponder`, with the class method `new`, the six instance
methods, and the single opaque pointer-sized ivar. -/
def buildAppDelegateClass : ObjcClassDecl :=
  { name := "TaoAppDelegate"
  , superclass := "NSResponder"
  , classMethods := [("new", "new")]
  , instanceMethods :=
      [ ("dealloc", "dealloc")
      , ("applicationDidFinishLaunching:", "did_finish_launching")
      , ("applicationWillTerminate:", "application_will_terminate")
      , ("applicationWillBecomeActive:", "application_will_become_active")
      , ("handleEvent:withReplyEvent:", "application_handle_apple_event")
      , ("applicationShouldHandleReopen:hasVisibleWindows:", "application_should_handle_reopen") ]
  , ivars := [AUX_DELEGATE_STATE_NAME] }

/-- Per-process cache backing the `lazy_static!` item `APP_DELEGATE_CLASS`. -/
structure ProcessClassState where
  cached : Option ObjcClassDecl
deriving DecidableEq, Repr

/-- Access to the `lazy_static!` item `APP_DELEGATE_CLASS`: the first access
runs the initialiser and caches the result; every later access returns the
cached handle and leaves the cache untouched. -/
def APP_DELEGATE_CLASS (st : ProcessClassState) : ObjcClassDecl × ProcessClassState :=
  match st.cached with
  | some c => (c, st)
  | none => (buildAppDelegateClass, ⟨some buildAppDelegateClass⟩)

/-- The process cache after `n` accesses to `APP_DELEGATE_CLASS`, starting
from the fresh (uninitialised) process state. -/
def classStateAfter : Nat → ProcessClassState
  | 0 => ⟨none⟩
  | n + 1 => (APP_DELEGATE_CLASS (classStateAfter n)).2

/-- A fresh world: empty heap, no registered Apple event handler. -/
def world0 : World := { heap := Heap.empty, handlers := fun _ => none }

/-- Projection of a successful accessor result to the updated world
(fresh world as the dummy for the other cases). -/
def okWorldOf : AccessResult → World
  | .ok _ w => w
  | _ => world0

/-- A concrete delivery sequence respecting the host ordering guarantees. -/
def sampleNotifs : List Notification :=
  [ .launchFinished 0
  , .willBecomeActive 4
  , .shouldHandleReopen 3 false
  , .handleServiceEvent 7 8
  , .willTerminate 1 ]

/-- A concrete external URL-event handler. -/
def sampleHae : Nat → String → Nat → Nat → Bool := fun _ _ _ _ => true

/-- A concrete external reopen handler. -/
def sampleSshr : Nat → String → Nat → Bool → Bool := fun _ _ _ _ => false

/-! ## Theorems -/

/-- Counting over a flattened map is the sum of the per-element counts. -/
theorem countP_flatten_map {α β : Type} (p : β → Bool) (f : α → List β)
    (ns : List α) :
    ((ns.map f).flatten).countP p = (ns.map (fun n => (f n).countP p)).sum := by
  induction ns with
  | nil => rfl
  | cons a l ih => simp [List.countP_append, ih]

/-- Summing an indicator over a list counts the elements satisfying it. -/
theorem sum_map_indicator (p : Notification → Bool) (ns : List Notification) :
    (ns.map (fun n => if p n then 1 else 0)).sum = ns.countP p := by
  induction ns with
  | nil => rfl
  | cons a l ih =>
      rcases h : p a <;> simp [List.countP_cons, h, ih, Nat.add_comm]

/-- Per-notification count of `AppState::launched` calls: one for
launch-finished, zero otherwise. -/
theorem dispatch_countP_isLaunched (hae : Nat → String → Nat → Nat → Bool)
    (sshr : Nat → String → Nat → Bool → Bool) (this : Nat) (n : Notification) :
    (dispatchNotif hae sshr this n).countP Effect.isLaunched =
      (if n.isLaunch then 1 else 0) := by
  cases n <;> rfl

/-- Per-notification count of `AppState::exit` calls: one for will-terminate,
zero otherwise. -/
theorem dispatch_countP_isExit (hae : Nat → String → Nat → Nat → Bool)
    (sshr : Nat → String → Nat → Bool → Bool) (this : Nat) (n : Notification) :
    (dispatchNotif hae sshr this n).countP Effect.isExit =
      (if n.isTerm then 1 else 0) := by
  cases n <;> rfl

/-- Effect-trace counts of the state-machine calls equal the notification
counts, unconditionally. -/
theorem notifTrace_counts (hae : Nat → String → Nat → Nat → Bool)
    (sshr : Nat → String → Nat → Bool → Bool) (this : Nat)
    (ns : List Notification) :
    (notifTrace hae sshr this ns).countP Effect.isLaunched =
      ns.countP Notification.isLaunch ∧
    (notifTrace hae sshr this ns).countP Effect.isExit =
      ns.countP Notification.isTerm := by
  constructor
  · rw [notifTrace, countP_flatten_map]
    have : (ns.map fun n => (dispatchNotif hae sshr this n).countP Effect.isLaunched)
        = ns.map fun n => if n.isLaunch then 1 else 0 := by
      apply List.map_congr_left
      intro n _
      exact dispatch_countP_isLaunched hae sshr this n
    rw [this, sum_map_indicator]
  · rw [notifTrace, countP_flatten_map]
    have : (ns.map fun n => (dispatchNotif hae sshr this n).countP Effect.isExit)
        = ns.map fun n => if n.isTerm then 1 else 0 := by
      apply List.map_congr_left
      intro n _
      exact dispatch_countP_isExit hae sshr this n
    rw [this, sum_map_indicator]

/-- A list whose tail has no launch notification contains at most one. -/
theorem countP_isLaunch_le_one (ns : List Notification)
    (h : ns.tail.all (fun n => !n.isLaunch) = true) :
    ns.countP Notification.isLaunch ≤ 1 := by
  cases ns with
  | nil => simp
  | cons a l =>
      simp only [List.tail_cons, List.all_eq_true] at h
      have hzero : l.countP Notification.isLaunch = 0 := by
        apply List.countP_eq_zero.mpr
        intro n hn
        simpa using h n hn
      rcases ha : a.isLaunch <;> simp [List.countP_cons, hzero, ha]

/-- C1: for every delivery sequence respecting the host ordering guarantees
(launch-finished at most once and first; terminate at most once and after
launch), the forwarders call `AppState::launched` exactly once — exactly when
launch-finished fires — and `AppState::exit` at most once — exactly when
will-terminate fires — and the two lifecycle forwarders call no other
external entry point. -/
theorem c1_lifecycle_forwarding
    (hae : Nat → String → Nat → Nat → Bool) (sshr : Nat → String → Nat → Bool → Bool)
    (this : Nat) (ns : List Notification) (h : HostOrdered ns) :
    (notifTrace hae sshr this ns).countP Effect.isLaunched =
      ns.countP Notification.isLaunch ∧
    ns.countP Notification.isLaunch ≤ 1 ∧
    ((∃ n ∈ ns, n.isLaunch = true) →
      (notifTrace hae sshr this ns).countP Effect.isLaunched = 1) ∧
    (notifTrace hae sshr this ns).countP Effect.isExit =
      ns.countP Notification.isTerm ∧
    ns.countP Notification.isTerm ≤ 1 ∧
    (∀ n ∈ ns, (dispatchNotif hae sshr this n).countP Effect.isLaunched =
        (if n.isLaunch then 1 else 0)) ∧
    (∀ n ∈ ns, (dispatchNotif hae sshr this n).countP Effect.isExit =
        (if n.isTerm then 1 else 0)) ∧
    (∀ n ∈ ns, n.isLaunch = true ∨ n.isTerm = true →
      ∀ e ∈ dispatchNotif hae sshr this n, e.isExternalCall = true →
        (e = Effect.appStateLaunched this ∨ e = Effect.appStateExit)) := by
  obtain ⟨h1, h2, _h3⟩ := h
  have hc := notifTrace_counts hae sshr this ns
  have hle := countP_isLaunch_le_one ns h1
  refine ⟨hc.1, hle, ?_, hc.2, h2, ?_, ?_, ?_⟩
  · intro hex
    have hpos : 0 < ns.countP Notification.isLaunch := by
      rw [List.countP_pos_iff]
      simpa using hex
    omega
  · intro n _
    exact dispatch_countP_isLaunched hae sshr this n
  · intro n _
    exact dispatch_countP_isExit hae sshr this n
  · intro n _ hn e he hext
    cases n with
    | launchFinished m =>
        simp only [dispatchNotif, did_finish_launching, List.mem_cons,
          List.mem_singleton, List.not_mem_nil, or_false] at he
        rcases he with he | he | he <;> subst he <;>
          simp [Effect.isExternalCall] at hext ⊢
    | willTerminate m =>
        simp only [dispatchNotif, application_will_terminate, List.mem_cons,
          List.mem_singleton, List.not_mem_nil, or_false] at he
        rcases he with he | he | he <;> subst he <;>
          simp [Effect.isExternalCall] at hext ⊢
    | willBecomeActive m =>
        simp [Notification.isLaunch, Notification.isTerm] at hn
    | handleServiceEvent e r =>
        simp [Notification.isLaunch, Notification.isTerm] at hn
    | shouldHandleReopen s f =>
        simp [Notification.isLaunch, Notification.isTerm] at hn

/-- Witness for C1 at a concrete ordered delivery sequence: launch first, two
service notifications and an activation in between, terminate last; the trace
contains exactly one launch call and exactly one exit call. -/
theorem c1_lifecycle_forwarding_witness :
    HostOrdered sampleNotifs ∧
    (notifTrace sampleHae sampleSshr 5 sampleNotifs).countP Effect.isLaunched = 1 ∧
    (notifTrace sampleHae sampleSshr 5 sampleNotifs).countP Effect.isExit = 1 := by
  have hord : HostOrdered sampleNotifs := by
    refine ⟨by decide, by decide, ?_⟩
    decide
  have h := c1_lifecycle_forwarding sampleHae sampleSshr 5 sampleNotifs hord
  refine ⟨hord, ?_, ?_⟩
  · exact h.2.2.1 ⟨.launchFinished 0, by decide, rfl⟩
  · rw [h.2.2.2.1]
    decide

/-- C2: reading the auxiliary state record through the accessor on a freshly
allocated instance, before any mutation, yields exactly the documented
defaults: activation policy regular, create-default-menu true,
activate-ignoring-other-apps true. -/
theorem c2_defaults_after_allocation (w : World) :
    get_aux_state_mut (newHook w).2 (newHook w).1 =
      .ok defaultAuxState
        (okWorldOf (get_aux_state_mut (newHook w).2 (newHook w).1)) ∧
    defaultAuxState.activation_policy = .regular ∧
    defaultAuxState.create_default_menu = true ∧
    defaultAuxState.activate_ignoring_other_apps = true := by
  refine ⟨?_, rfl, rfl, rfl⟩
  simp [newHook, newSteps, execNewStep, Heap.alloc, get_aux_state_mut,
    RefCellAux.borrow_mut, okWorldOf]

/-- C3: allocating an instance and then immediately deallocating it succeeds,
restores the heap exactly (no leak, the one allocation freed exactly once),
and a second deallocation of the same instance is a detected contract
violation, not a no-op. -/
theorem c3_alloc_dealloc_no_leak_no_double_free (w : World) (hwf : w.heap.WF) :
    (deallocHook (newHook w).2 (newHook w).1).isSome = true ∧
    (∀ w2, deallocHook (newHook w).2 (newHook w).1 = some w2 →
      (∀ a, w2.heap.cells a = w.heap.cells a) ∧
      deallocHook w2 (newHook w).1 = none) := by
  have hnew : w.heap.cells w.heap.next = none := hwf w.heap.next le_rfl
  have hD : deallocHook (newHook w).2 (newHook w).1 =
      some { heap := ⟨w.heap.next + 1,
               fun b => if b = w.heap.next then none
                 else (newHook w).2.heap.cells b⟩
           , handlers := (newHook w).2.handlers } := by
    simp [newHook, newSteps, execNewStep, Heap.alloc, deallocHook, Heap.free]
  constructor
  · rw [hD]
    rfl
  · intro w2 hw2
    rw [hD, Option.some.injEq] at hw2
    subst hw2
    constructor
    · intro a
      by_cases ha : a = w.heap.next
      · subst ha
        simp [hnew]
      · simp [ha, newHook, newSteps, execNewStep, Heap.alloc]
    · simp [deallocHook, Heap.free, newHook, newSteps, execNewStep, Heap.alloc]

/-- Witness for C3 on the fresh world: dealloc after alloc succeeds, and
deallocating the reclaimed instance again is rejected. -/
theorem c3_alloc_dealloc_witness :
    world0.heap.WF ∧
    (deallocHook (newHook world0).2 (newHook world0).1).isSome = true ∧
    deallocHook ((deallocHook (newHook world0).2 (newHook world0).1).getD world0)
      (newHook world0).1 = none := by
  have hwf : world0.heap.WF := fun _ _ => rfl
  have h := c3_alloc_dealloc_no_leak_no_double_free world0 hwf
  exact ⟨hwf, h.1, (h.2 _ rfl).2⟩

/-- C4: if an accessor call has returned a live mutable borrow of an
auxiliary state record of an instance, a second accessor call on the same
instance in the same call chain panics instead of returning a second aliased
mutable handle. -/
theorem c4_reentrant_accessor_panics (w : World) (this : Object)
    (v : AuxDelegateState) (w' : World)
    (h : get_aux_state_mut w this = .ok v w') :
    get_aux_state_mut w' this = .panicked := by
  unfold get_aux_state_mut at h ⊢
  rcases hA : this.auxState with _ | addr
  · simp [hA] at h
  · simp only [hA] at h ⊢
    rcases hC : w.heap.cells addr with _ | c
    · simp [hC] at h
    · rcases hbor : c.borrowed
      · simp only [hC, RefCellAux.borrow_mut, hbor, Bool.false_eq_true,
          if_false, AccessResult.ok.injEq] at h
        obtain ⟨_, hw⟩ := h
        subst hw
        simp [RefCellAux.borrow_mut]
      · simp [hC, RefCellAux.borrow_mut, hbor] at h

/-- Witness for C4: on a freshly allocated instance, a first accessor call
succeeds with the defaults, and a second call while that borrow is live
panics. -/
theorem c4_reentrant_accessor_witness :
    get_aux_state_mut (newHook world0).2 (newHook world0).1 =
      .ok defaultAuxState
        (okWorldOf (get_aux_state_mut (newHook world0).2 (newHook world0).1)) ∧
    get_aux_state_mut
      (okWorldOf (get_aux_state_mut (newHook world0).2 (newHook world0).1))
      (newHook world0).1 = .panicked := by
  have h1 : get_aux_state_mut (newHook world0).2 (newHook world0).1 =
      .ok defaultAuxState
        (okWorldOf (get_aux_state_mut (newHook world0).2 (newHook world0).1)) := rfl
  exact ⟨h1, c4_reentrant_accessor_panics _ _ _ _ h1⟩

/-- C5: the "handle service event" forwarder returns exactly the boolean the
externally linked `handle_apple_event` returns for the same arguments, passes
the instance, selector, event and reply through unmodified, and performs
nothing else. -/
theorem c5_apple_event_passthrough
    (hae : Nat → String → Nat → Nat → Bool)
    (this : Nat) (cmd : String) (event reply : Nat) :
    application_handle_apple_event hae this cmd event reply =
      (hae this cmd event reply,
       [Effect.callHandleAppleEvent this cmd event reply]) := rfl

/-- C6: the "should handle reopen" forwarder passes the instance, selector,
sender and has-visible-windows flag (either value) unchanged to the
externally linked `service_should_handle_reopen` and returns its verdict
unchanged. -/
theorem c6_reopen_passthrough
    (sshr : Nat → String → Nat → Bool → Bool)
    (obj : Nat) (sel : String) (sender : Nat) :
    (∀ flag : Bool,
      application_should_handle_reopen sshr obj sel sender flag =
        (sshr obj sel sender flag,
         [Effect.callShouldHandleReopen obj sel sender flag])) ∧
    (application_should_handle_reopen sshr obj sel sender false).1 =
      sshr obj sel sender false ∧
    (application_should_handle_reopen sshr obj sel sender true).1 =
      sshr obj sel sender true :=
  ⟨fun _ => rfl, rfl, rfl⟩

/-- C7: the delegate class is built exactly once, with the full function
table (class method `new`, instance methods `dealloc`, launch finished, will
terminate, will become active, handle service event, should handle reopen)
and the single opaque ivar, and every later access returns the same cached
handle with the cache unchanged. -/
theorem c7_class_built_once_immutable :
    (APP_DELEGATE_CLASS ⟨none⟩).1 = buildAppDelegateClass ∧
    buildAppDelegateClass.name = "TaoAppDelegate" ∧
    buildAppDelegateClass.superclass = "NSResponder" ∧
    buildAppDelegateClass.classMethods = [("new", "new")] ∧
    buildAppDelegateClass.instanceMethods =
      [ ("dealloc", "dealloc")
      , ("applicationDidFinishLaunching:", "did_finish_launching")
      , ("applicationWillTerminate:", "application_will_terminate")
      , ("applicationWillBecomeActive:", "application_will_become_active")
      , ("handleEvent:withReplyEvent:", "application_handle_apple_event")
      , ("applicationShouldHandleReopen:hasVisibleWindows:",
         "application_should_handle_reopen") ] ∧
    buildAppDelegateClass.ivars = [AUX_DELEGATE_STATE_NAME] ∧
    (∀ n, classStateAfter (n + 1) = ⟨some buildAppDelegateClass⟩ ∧
      (APP_DELEGATE_CLASS (classStateAfter (n + 1))).1 = buildAppDelegateClass ∧
      (APP_DELEGATE_CLASS (classStateAfter (n + 1))).2 = classStateAfter (n + 1)) := by
  have hstep : ∀ n, classStateAfter (n + 1) = ⟨some buildAppDelegateClass⟩ := by
    intro n
    induction n with
    | zero => rfl
    | succ m ih =>
        show (APP_DELEGATE_CLASS (classStateAfter (m + 1))).2 = _
        rw [ih]
        rfl
  refine ⟨rfl, rfl, rfl, rfl, rfl, rfl, fun n => ⟨hstep n, ?_, ?_⟩⟩
  · rw [hstep n]
    rfl
  · rw [hstep n]
    rfl

/-- C8: the allocation hook registers the fresh instance, under the
handle-service-event selector, as the single handler for the open-URL event
class/event-id pair, both constants being exactly `0x4755524c`; no other
registry entry is touched. -/
theorem c8_url_event_registration (w : World) :
    kInternetEventClass = 0x4755524c ∧
    kAEGetURL = 0x4755524c ∧
    (newHook w).2.handlers (kInternetEventClass, kAEGetURL) =
      some ((newHook w).1, "handleEvent:withReplyEvent:") ∧
    (∀ k, k ≠ (kInternetEventClass, kAEGetURL) →
      (newHook w).2.handlers k = w.handlers k) := by
  refine ⟨rfl, rfl, ?_, ?_⟩
  · simp [newHook, newSteps, execNewStep, Heap.alloc]
  · intro k hk
    simp [newHook, newSteps, execNewStep, Heap.alloc, hk]

/-- C9: the will-become-active forwarder is inert: its only emitted effect is
the trace marker, so it calls no external entry point and touches no state. -/
theorem c9_will_become_active_inert (obj : Nat) (sel : String) (noteId : Nat) :
    application_will_become_active obj sel noteId =
      [Effect.traceMark "Triggered `applicationWillBecomeActive`"] ∧
    (application_will_become_active obj sel noteId).all
      (fun e => !e.isExternalCall) = true :=
  ⟨rfl, rfl⟩

/-- C10: within one run of the allocation hook the opaque slot is written
strictly before the open-URL registration; once the hook completes, the slot
is non-null and holds an initialised record, the registered handler is the
returned instance, and two successive runs store distinct record
addresses. -/
theorem c10_slot_written_before_registration (w : World) :
    newSteps.indexOf NewStep.storeAux < newSteps.indexOf NewStep.registerUrlHandler ∧
    (((newSteps.take 2).foldl execNewStep
        { obj := { auxState := none }, world := w }).obj.auxState =
      some w.heap.next) ∧
    (newHook w).1.auxState = some w.heap.next ∧
    (newHook w).2.heap.cells w.heap.next =
      some { borrowed := false, value := defaultAuxState } ∧
    (newHook w).2.handlers (kInternetEventClass, kAEGetURL) =
      some ((newHook w).1, "handleEvent:withReplyEvent:") ∧
    (newHook (newHook w).2).1.auxState = some (w.heap.next + 1) ∧
    (newHook w).1.auxState ≠ (newHook (newHook w).2).1.auxState := by
  refine ⟨by decide, rfl, rfl, ?_, ?_, rfl, ?_⟩
  · simp [newHook, newSteps, execNewStep, Heap.alloc]
  · simp [newHook, newSteps, execNewStep, Heap.alloc]
  · show some w.heap.next ≠ some (w.heap.next + 1)
    simp

end Tao
